import Mathlib

/-!
Verification development for the avalanche-cli local subnet deployer
(package subnet: LocalSubnetDeployer and helpers).

The Go source is shallowly embedded as follows.

Data model: ClusterInfo mirrors rpcpb.ClusterInfo restricted to the fields
the deployer reads (Healthy, CustomVmsHealthy, NodeInfos, Subnets,
CustomVms).  The Go map CustomVms (blockchain id to VM info) is embedded as
an association list; ids.ID is embedded as an inductive with a designated
empty value (the Go zero value ids.Empty).

Effects: every call the deployer makes to an external collaborator
(the network-runner RPC client, the plugin binary downloader, the file
system, HTTP) is represented by an environment record field holding that
call's outcome, and the functions additionally return a log of the calls
they issued, so that claims about which calls happen on which path are
statements about the returned log.  WaitForHealthy is embedded separately
in full detail as a fuel-indexed loop over per-tick context-cancellation
flags and per-tick health responses; at the doDeploy level each of the
three WaitForHealthy invocations is one environment field holding its
outcome and is logged as one health call.

The Go slice indexing endpoints[0] in the report step, which panics on an
empty slice rather than returning an error, is embedded with the
Option-returning index: the none case yields the distinguished result
DeployResult.panic.
-/

namespace AvalancheCli

/-- Embedding of avalanchego ids.ID: either the zero value ids.Empty or an
identifier obtained from a string. -/
inductive ID where
  | empty
  | ofString (s : String)
deriving DecidableEq

/-- Node descriptor from rpcpb.ClusterInfo.NodeInfos: name and URI. -/
structure NodeInfo where
  name : String
  uri : String
deriving DecidableEq

/-- Custom VM descriptor from rpcpb.ClusterInfo.CustomVms values:
VM identifier and blockchain identifier, both in string form. -/
structure VmInfo where
  vmId : String
  blockchainId : String
deriving DecidableEq

/-- Embedding of rpcpb.ClusterInfo restricted to the fields the deployer
reads.  The Go map CustomVms from blockchain id to VM info is an
association list here. -/
structure ClusterInfo where
  healthy : Bool
  customVmsHealthy : Bool
  nodeInfos : List NodeInfo
  subnets : List String
  customVms : List (String × VmInfo)
deriving DecidableEq

/-- Embedding of the parsed core.Genesis restricted to what doDeploy uses:
the chain numeric id (genesis.Config.ChainID) and the allocation mapping
(genesis.Alloc, address to balance), the latter only printed. -/
structure Genesis where
  chainID : Int
  alloc : List (String × Int)
deriving DecidableEq

/-- One formatted line of GetEndpoints:
fmt.Sprintf with format
"Endpoint at node %s for blockchain %q with VM ID %q: %s/ext/bc/%s/rpc".
The verb %q is embedded as plain quote wrapping. -/
def endpointLine (nodeInfo : NodeInfo) (blockchainID : String) (vmInfo : VmInfo) : String :=
  "Endpoint at node " ++ nodeInfo.name ++ " for blockchain \"" ++ blockchainID ++
    "\" with VM ID \"" ++ vmInfo.vmId ++ "\": " ++ nodeInfo.uri ++ "/ext/bc/" ++
    blockchainID ++ "/rpc"

/-- Embedding of GetEndpoints: for each node of the cluster and each entry
of the custom-VM mapping, one formatted line. -/
def GetEndpoints (clusterInfo : ClusterInfo) : List String :=
  clusterInfo.nodeInfos.flatMap fun nodeInfo =>
    clusterInfo.customVms.map fun p => endpointLine nodeInfo p.1 p.2

/-- Embedding of alreadyDeployed: true when the (possibly nil) cluster info
holds a custom VM whose VmId equals the string form of the requested
chain VM id. -/
def alreadyDeployed (chainVMID : String) (clusterInfo : Option ClusterInfo) : Bool :=
  match clusterInfo with
  | none => false
  | some ci => ci.customVms.any fun p => p.2.vmId == chainVMID

/-- Auxiliary substring search over character lists, used to embed
strings.Contains. -/
def infixOfChars (pat : List Char) : List Char → Bool
  | [] => pat.isEmpty
  | c :: rest => pat.isPrefixOf (c :: rest) || infixOfChars pat rest

/-- Embedding of strings.Contains s pat. -/
def strContains (s pat : String) : Bool :=
  infixOfChars pat.toList s.toList

/-- Lexicographic order on strings by their character lists, the order in
which sort.Strings sorts a slice (byte order of the UTF-8 encodings agrees
with code-point order). -/
def strLe (a b : String) : Prop := a.toList ≤ b.toList

instance : DecidableRel strLe :=
  fun a b => inferInstanceAs (Decidable (a.toList ≤ b.toList))

instance : IsTotal String strLe := ⟨fun a b => le_total a.toList b.toList⟩

instance : IsTrans String strLe := ⟨fun _ _ _ h₁ h₂ => le_trans h₁ h₂⟩

instance : IsAntisymm String strLe :=
  ⟨fun _ _ h₁ h₂ => String.ext (le_antisymm h₁ h₂)⟩

/-- Embedding of sort.Strings: a sort of the slice in the string order. -/
def sortStrings (l : List String) : List String := List.insertionSort strLe l

/-- Embedding of the slot-selection step of doDeploy (sort the subnet id
pool, fail if it is empty, otherwise pick the entry at index
numBlockchains mod pool size). -/
def slotSelect (subnetIDs : List String) (numBlockchains : Nat) : Except String String :=
  let sorted := sortStrings subnetIDs
  if h : sorted.length = 0 then
    Except.error "the network has not preloaded subnet IDs"
  else
    Except.ok (sorted.get ⟨numBlockchains % sorted.length,
      Nat.mod_lt _ (Nat.pos_of_ne_zero h)⟩)

/-- The calls the deployer issues to external collaborators: the three
WaitForHealthy poll loops (each logged as one health entry), the plugin
binary installation, the LoadSnapshot RPC and the CreateBlockchains RPC
(recording the blockchain specification fields VmName, Genesis, SubnetId). -/
inductive RpcCall where
  | health
  | pluginInstall
  | loadSnapshot
  | createBlockchains (vmName genesisPath subnetID : String)
deriving DecidableEq

/-- Result of doDeploy: the returned pair of ids with nil error, a non-nil
error with its message, or a runtime panic (out-of-range slice index). -/
inductive DeployResult where
  | ok (subnetID blockchainID : ID)
  | err (msg : String)
  | panic
deriving DecidableEq

/-- Outcomes of every external call doDeploy and its helpers make, one
field per call site, so the control flow of the embedding is a pure
function of this record. -/
structure DeployEnv where
  setupEnv : Except String (String × String)
  clientOk : Except String Unit
  genesisFileExists : Bool
  genesisParse : Except String Genesis
  vmID : Except String String
  health1 : Except String ClusterInfo
  pluginInstallResult : Except String Unit
  loadNodeConfig : Except String String
  loadSnapshotResult : Except String Unit
  health2 : Except String ClusterInfo
  createBlockchainsResult : Except String Unit
  health3 : Except String ClusterInfo
  fromString : String → Option ID
  procIsRunning : Except String Bool
  startServerProcess : Except String Unit

/-- Embedding of startNetwork: load the node config (an error there returns
before any RPC), then issue the LoadSnapshot RPC, wrapping its error. -/
def startNetwork (env : DeployEnv) : List RpcCall × Except String Unit :=
  match env.loadNodeConfig with
  | Except.error e => ([], Except.error e)
  | Except.ok _ =>
    match env.loadSnapshotResult with
    | Except.error e => ([RpcCall.loadSnapshot], Except.error ("failed to start network :" ++ e))
    | Except.ok _ => ([RpcCall.loadSnapshot], Except.ok ())

/-- Embedding of the blockchain-id resolution loop at the end of doDeploy:
fold over the custom-VM mapping, overwriting the id (ignoring the
ids.FromString error, whose zero value is ids.Empty) at each entry whose
VmId matches. -/
def resolveBlockchainID (env : DeployEnv) (chainVMID : String)
    (customVms : List (String × VmInfo)) : ID :=
  customVms.foldl
    (fun acc p =>
      if p.2.vmId == chainVMID then (env.fromString p.2.blockchainId).getD ID.empty else acc)
    ID.empty

/-- Embedding of the report step of doDeploy: compute the endpoint list,
index its first element (Go endpoints[0], a panic when the list is empty),
then return the subnet id parsed from the chosen slot string and the
blockchain id resolved from the cluster info. -/
def reportStep (env : DeployEnv) (chainVMID subnetIDStr : String)
    (clusterInfo : ClusterInfo) : DeployResult :=
  let endpoints := GetEndpoints clusterInfo
  match endpoints[0]? with
  | none => DeployResult.panic
  | some _ =>
    DeployResult.ok ((env.fromString subnetIDStr).getD ID.empty)
      (resolveBlockchainID env chainVMID clusterInfo.customVms)

/-- Embedding of doDeploy from the VM-id computation on, after the network
health probe fixed networkBooted and the (possibly nil) cluster info:
already-deployed no-op check, plugin installation, conditional network
boot, health confirmation, slot selection, blockchain creation, second
health confirmation, report. -/
def deployPostProbe (env : DeployEnv) (chain chainGenesis : String)
    (networkBooted : Bool) (clusterInfo : Option ClusterInfo) : List RpcCall × DeployResult :=
  match env.vmID with
  | Except.error e =>
    ([], DeployResult.err ("failed to create VM ID from " ++ chain ++ ": " ++ e))
  | Except.ok chainVMID =>
    if alreadyDeployed chainVMID clusterInfo then
      ([], DeployResult.ok ID.empty ID.empty)
    else
      match env.pluginInstallResult with
      | Except.error e => ([RpcCall.pluginInstall], DeployResult.err e)
      | Except.ok _ =>
        match (if networkBooted then ([], Except.ok ()) else startNetwork env) with
        | (bootCalls, Except.error e) =>
          (RpcCall.pluginInstall :: bootCalls, DeployResult.err e)
        | (bootCalls, Except.ok _) =>
          match env.health2 with
          | Except.error e =>
            (RpcCall.pluginInstall :: bootCalls ++ [RpcCall.health],
             DeployResult.err ("failed to query network health: " ++ e))
          | Except.ok clusterInfo2 =>
            match slotSelect clusterInfo2.subnets clusterInfo2.customVms.length with
            | Except.error e =>
              (RpcCall.pluginInstall :: bootCalls ++ [RpcCall.health], DeployResult.err e)
            | Except.ok subnetIDStr =>
              match env.createBlockchainsResult with
              | Except.error e =>
                (RpcCall.pluginInstall :: bootCalls ++
                   [RpcCall.health, RpcCall.createBlockchains chain chainGenesis subnetIDStr],
                 DeployResult.err ("failed to deploy blockchain :" ++ e))
              | Except.ok _ =>
                match env.health3 with
                | Except.error e =>
                  (RpcCall.pluginInstall :: bootCalls ++
                     [RpcCall.health, RpcCall.createBlockchains chain chainGenesis subnetIDStr,
                      RpcCall.health],
                   DeployResult.err ("failed to query network health: " ++ e))
                | Except.ok clusterInfo3 =>
                  (RpcCall.pluginInstall :: bootCalls ++
                     [RpcCall.health, RpcCall.createBlockchains chain chainGenesis subnetIDStr,
                      RpcCall.health],
                   reportStep env chainVMID subnetIDStr clusterInfo3)

/-- Embedding of doDeploy: local environment setup, gRPC client creation,
genesis file existence and parse checks, then the network health probe
(whose "not bootstrapped" error is tolerated and recorded as
networkBooted = false with nil cluster info, any other error being fatal),
then the rest of the pipeline. -/
def doDeploy (env : DeployEnv) (chain chainGenesis : String) : List RpcCall × DeployResult :=
  match env.setupEnv with
  | Except.error e => ([], DeployResult.err e)
  | Except.ok _ =>
    match env.clientOk with
    | Except.error e => ([], DeployResult.err ("error creating gRPC Client: " ++ e))
    | Except.ok _ =>
      if env.genesisFileExists = false then
        ([], DeployResult.err ("evaluated chain genesis file to be at " ++ chainGenesis ++
          " but it does not seem to exist"))
      else
        match env.genesisParse with
        | Except.error e =>
          ([], DeployResult.err ("failed to unpack chain ID from genesis: " ++ e))
        | Except.ok _ =>
          match env.health1 with
          | Except.ok ci =>
            (RpcCall.health :: (deployPostProbe env chain chainGenesis true (some ci)).1,
             (deployPostProbe env chain chainGenesis true (some ci)).2)
          | Except.error e =>
            if strContains e "not bootstrapped" then
              (RpcCall.health :: (deployPostProbe env chain chainGenesis false none).1,
               (deployPostProbe env chain chainGenesis false none).2)
            else
              ([RpcCall.health],
               DeployResult.err ("failed to query network health: " ++ e))

/-- Embedding of StartServer: query whether the backend process runs, start
it if not; returns the backendStartedHere flag. -/
def StartServer (env : DeployEnv) : Except String Bool :=
  match env.procIsRunning with
  | Except.error e => Except.error ("failed querying if server process is running: " ++ e)
  | Except.ok isRunning =>
    if isRunning then Except.ok false
    else
      match env.startServerProcess with
      | Except.error e => Except.error ("failed starting gRPC server process: " ++ e)
      | Except.ok _ => Except.ok true

/-- Embedding of DeployToLocalNetwork: StartServer then doDeploy. -/
def DeployToLocalNetwork (env : DeployEnv) (chain chainGenesis : String) :
    List RpcCall × DeployResult :=
  match StartServer env with
  | Except.error e => ([], DeployResult.err e)
  | Except.ok _ => doDeploy env chain chainGenesis

/-- A health RPC response: the (possibly nil) cluster info. -/
structure HealthResponse where
  clusterInfo : Option ClusterInfo
deriving DecidableEq

/-- Outcome of the WaitForHealthy loop: success with the cluster info,
termination by context cancellation (ctx.Err), a failed health RPC
(wrapped fatal error), or fuel exhaustion of the embedding (the Go loop
itself has no iteration bound). -/
inductive PollResult where
  | success (ci : ClusterInfo)
  | ctxCancelled
  | healthCallFailed (msg : String)
  | outOfFuel
deriving DecidableEq

/-- Embedding of the WaitForHealthy loop body, one recursive step per tick
i: the select first observes whether the context is done at this tick; a
health RPC error is fatal and wrapped; a nil cluster info, a false Healthy
flag or a false CustomVmsHealthy flag each poll again; otherwise the
cluster info is returned. -/
def waitForHealthyAux (ctxDone : Nat → Bool) (health : Nat → Except String HealthResponse) :
    Nat → Nat → PollResult
  | 0, _ => PollResult.outOfFuel
  | fuel + 1, i =>
    if ctxDone i then PollResult.ctxCancelled
    else
      match health i with
      | Except.error e =>
        PollResult.healthCallFailed
          ("the health check failed to complete. The server might be down or have crashed, check the logs! "
            ++ e)
      | Except.ok resp =>
        match resp.clusterInfo with
        | none => waitForHealthyAux ctxDone health fuel (i + 1)
        | some ci =>
          if ci.healthy = false then waitForHealthyAux ctxDone health fuel (i + 1)
          else if ci.customVmsHealthy = false then waitForHealthyAux ctxDone health fuel (i + 1)
          else PollResult.success ci

/-- Embedding of WaitForHealthy: run the loop from tick 0. -/
def WaitForHealthy (ctxDone : Nat → Bool) (health : Nat → Except String HealthResponse)
    (fuel : Nat) : PollResult :=
  waitForHealthyAux ctxDone health fuel 0

/-- A health-call outcome on which the loop stays in the polling state:
a response that is no error but carries nil cluster info, or a false
Healthy flag, or a false CustomVmsHealthy flag. -/
def continuePolling (r : Except String HealthResponse) : Prop :=
  ∃ resp, r = Except.ok resp ∧
    (resp.clusterInfo = none ∨
      ∃ ci, resp.clusterInfo = some ci ∧
        (ci.healthy = false ∨ ci.customVmsHealthy = false))

/-- On-disk state the snapshot manager inspects and mutates: whether the
bootstrap snapshot archive file and the extracted default snapshot
directory exist. -/
structure SnapshotFsState where
  archiveExists : Bool
  snapshotDirExists : Bool
deriving DecidableEq

/-- The externally visible operations SetDefaultSnapshot may perform. -/
inductive SnapshotAction where
  | httpGetArchive
  | writeArchiveFile
  | removeSnapshotDir
  | readArchiveFile
  | extractArchive
deriving DecidableEq

/-- Outcomes of the external calls SetDefaultSnapshot makes: the HTTP GET
(error or status code, 200 meaning a readable body), the body read, the
archive file write, the archive file read and the archive extraction. -/
structure SnapshotEnv where
  download : Except String Nat
  readBody : Except String Unit
  writeFile : Except String Unit
  readArchive : Except String Unit
  installArchive : Except String Unit

/-- Embedding of the first half of SetDefaultSnapshot: when the bootstrap
archive is absent, HTTP GET it (non-200 status fatal), read the body and
write it to disk. -/
def ensureArchive (env : SnapshotEnv) (fs : SnapshotFsState) :
    SnapshotFsState × List SnapshotAction × Except String Unit :=
  if fs.archiveExists then (fs, [], Except.ok ())
  else
    match env.download with
    | Except.error e =>
      (fs, [SnapshotAction.httpGetArchive],
       Except.error ("failed downloading bootstrap snapshot: " ++ e))
    | Except.ok status =>
      if status ≠ 200 then
        (fs, [SnapshotAction.httpGetArchive],
         Except.error ("failed downloading bootstrap snapshot: unexpected http status code: "
           ++ toString status))
      else
        match env.readBody with
        | Except.error e =>
          (fs, [SnapshotAction.httpGetArchive],
           Except.error ("failed downloading bootstrap snapshot: " ++ e))
        | Except.ok _ =>
          match env.writeFile with
          | Except.error e =>
            (fs, [SnapshotAction.httpGetArchive, SnapshotAction.writeArchiveFile],
             Except.error ("failed writing down bootstrap snapshot: " ++ e))
          | Except.ok _ =>
            ({ fs with archiveExists := true },
             [SnapshotAction.httpGetArchive, SnapshotAction.writeArchiveFile], Except.ok ())

/-- Embedding of SetDefaultSnapshot: ensure the bootstrap archive exists,
remove the extracted default snapshot directory when force is set, and
extract the archive when the directory is absent (a successful extraction
of the bootstrap archive creates the default snapshot directory). -/
def SetDefaultSnapshot (env : SnapshotEnv) (fs : SnapshotFsState) (force : Bool) :
    SnapshotFsState × List SnapshotAction × Except String Unit :=
  match ensureArchive env fs with
  | (fs₁, acts, Except.error e) => (fs₁, acts, Except.error e)
  | (fs₁, acts, Except.ok _) =>
    let fs₂ := if force then { fs₁ with snapshotDirExists := false } else fs₁
    let acts₂ := if force then acts ++ [SnapshotAction.removeSnapshotDir] else acts
    if fs₂.snapshotDirExists then (fs₂, acts₂, Except.ok ())
    else
      match env.readArchive with
      | Except.error e =>
        (fs₂, acts₂ ++ [SnapshotAction.readArchiveFile],
         Except.error ("failed reading bootstrap snapshot: " ++ e))
      | Except.ok _ =>
        match env.installArchive with
        | Except.error e =>
          (fs₂, acts₂ ++ [SnapshotAction.readArchiveFile, SnapshotAction.extractArchive],
           Except.error ("failed installing bootstrap snapshot: " ++ e))
        | Except.ok _ =>
          ({ fs₂ with snapshotDirExists := true },
           acts₂ ++ [SnapshotAction.readArchiveFile, SnapshotAction.extractArchive],
           Except.ok ())

/-! Concrete fixtures used by the witness theorems. -/

/-- A fully healthy cluster fixture with one node, three preloaded subnet
slots and one already-deployed custom VM. -/
def ciFixture : ClusterInfo where
  healthy := true
  customVmsHealthy := true
  nodeInfos := [{ name := "node1", uri := "http://127.0.0.1:9650" }]
  subnets := ["s3", "s1", "s2"]
  customVms := [("bcExisting", { vmId := "vmOld", blockchainId := "bcExisting" })]

/-- A deploy environment fixture in which every external call succeeds. -/
def envFixture : DeployEnv where
  setupEnv := Except.ok ("avalanchego", "plugins")
  clientOk := Except.ok ()
  genesisFileExists := true
  genesisParse := Except.ok { chainID := 1337, alloc := [("0x8db9", 1000000)] }
  vmID := Except.ok "vmNew"
  health1 := Except.ok ciFixture
  pluginInstallResult := Except.ok ()
  loadNodeConfig := Except.ok ""
  loadSnapshotResult := Except.ok ()
  health2 := Except.ok ciFixture
  createBlockchainsResult := Except.ok ()
  health3 := Except.ok ciFixture
  fromString := fun s => some (ID.ofString s)
  procIsRunning := Except.ok true
  startServerProcess := Except.ok ()

/-- A snapshot environment fixture in which every external call succeeds. -/
def snapshotEnvFixture : SnapshotEnv where
  download := Except.ok 200
  readBody := Except.ok ()
  writeFile := Except.ok ()
  readArchive := Except.ok ()
  installArchive := Except.ok ()

/-- A healthy cluster fixture with one node but no deployed custom VMs. -/
def ciNoVms : ClusterInfo where
  healthy := true
  customVmsHealthy := true
  nodeInfos := [{ name := "node1", uri := "http://127.0.0.1:9650" }]
  subnets := ["s1"]
  customVms := []

/-- A cluster fixture that is overall healthy while its custom VMs are
not healthy yet. -/
def ciHalfHealthy : ClusterInfo where
  healthy := true
  customVmsHealthy := false
  nodeInfos := []
  subnets := []
  customVms := []

/-! Helper lemmas shared by several developments below. -/

lemma getEndpoints_length (ci : ClusterInfo) :
    (GetEndpoints ci).length = ci.nodeInfos.length * ci.customVms.length := by
  unfold GetEndpoints
  induction ci.nodeInfos with
  | nil => simp
  | cons n ns ih => simp [ih, Nat.succ_mul, Nat.add_comm]

lemma getEndpoints_eq_nil (ci : ClusterInfo)
    (h : ci.nodeInfos = [] ∨ ci.customVms = []) : GetEndpoints ci = [] := by
  rcases h with h | h <;> simp [GetEndpoints, h]

lemma slotSelect_ok_of_ne_nil (pool : List String) (c : Nat) (h : pool ≠ []) :
    ∃ s, slotSelect pool c = Except.ok s := by
  have hperm : (sortStrings pool).Perm pool := List.perm_insertionSort strLe pool
  have hne : ¬ (sortStrings pool).length = 0 := by
    rw [hperm.length_eq]
    exact fun h0 => h (List.eq_nil_of_length_eq_zero h0)
  refine ⟨(sortStrings pool).get
    ⟨c % (sortStrings pool).length, Nat.mod_lt _ (Nat.pos_of_ne_zero hne)⟩, ?_⟩
  simp only [slotSelect]
  rw [dif_neg hne]

lemma waitForHealthyAux_success (ctxDone : Nat → Bool)
    (health : Nat → Except String HealthResponse) :
    ∀ (fuel i : Nat) (ci : ClusterInfo),
      waitForHealthyAux ctxDone health fuel i = PollResult.success ci →
      ci.healthy = true ∧ ci.customVmsHealthy = true ∧
        ∃ j, i ≤ j ∧ j < i + fuel ∧ ctxDone j = false ∧
          health j = Except.ok { clusterInfo := some ci } := by
  intro fuel
  induction fuel with
  | zero => intro i ci h; simp [waitForHealthyAux] at h
  | succ n ih =>
    intro i ci h
    rw [waitForHealthyAux] at h
    by_cases hc : ctxDone i = true
    · simp [hc] at h
    · rw [if_neg (by simp [hc])] at h
      cases hh : health i with
      | error e => rw [hh] at h; simp at h
      | ok resp =>
        rw [hh] at h
        dsimp only at h
        cases hci : resp.clusterInfo with
        | none =>
          rw [hci] at h
          obtain ⟨h₁, h₂, j, hj₁, hj₂, hj₃, hj₄⟩ := ih (i + 1) ci h
          exact ⟨h₁, h₂, j, by omega, by omega, hj₃, hj₄⟩
        | some c =>
          rw [hci] at h
          dsimp only at h
          by_cases hhb : c.healthy = false
          · rw [if_pos hhb] at h
            obtain ⟨h₁, h₂, j, hj₁, hj₂, hj₃, hj₄⟩ := ih (i + 1) ci h
            exact ⟨h₁, h₂, j, by omega, by omega, hj₃, hj₄⟩
          · rw [if_neg hhb] at h
            by_cases hvb : c.customVmsHealthy = false
            · rw [if_pos hvb] at h
              obtain ⟨h₁, h₂, j, hj₁, hj₂, hj₃, hj₄⟩ := ih (i + 1) ci h
              exact ⟨h₁, h₂, j, by omega, by omega, hj₃, hj₄⟩
            · rw [if_neg hvb] at h
              obtain rfl : c = ci := by
                cases h
                rfl
              refine ⟨by simpa using hhb, by simpa using hvb,
                i, le_refl i, by omega, by simpa using hc, ?_⟩
              rw [hh]
              cases resp
              simp_all

lemma waitForHealthyAux_cancelled_of_continue (d : Nat)
    (health : Nat → Except String HealthResponse) :
    ∀ (fuel i : Nat), i ≤ d → d < i + fuel →
      (∀ j, i ≤ j → j < d → continuePolling (health j)) →
      waitForHealthyAux (fun j => decide (d ≤ j)) health fuel i =
        PollResult.ctxCancelled := by
  intro fuel
  induction fuel with
  | zero => intro i h₁ h₂ _; exact absurd h₂ (by omega)
  | succ n ih =>
    intro i h₁ h₂ h₃
    by_cases hdi : d ≤ i
    · rw [waitForHealthyAux, if_pos (by simpa using hdi)]
    · have hid : i < d := by omega
      obtain ⟨resp, hresp, hcase⟩ := h₃ i (le_refl i) hid
      rw [waitForHealthyAux, if_neg (by simpa using hdi), hresp]
      dsimp only
      have hrec : waitForHealthyAux (fun j => decide (d ≤ j)) health n (i + 1) =
          PollResult.ctxCancelled :=
        ih (i + 1) (by omega) (by omega) (fun j hj₁ hj₂ => h₃ j (by omega) hj₂)
      rcases hcase with hnone | ⟨ci, hci, hflags⟩
      · rw [hnone]
        exact hrec
      · rw [hci]
        dsimp only
        rcases hflags with hf | hf
        · rw [if_pos hf]
          exact hrec
        · cases hhb : ci.healthy with
          | false => rw [if_pos rfl]; exact hrec
          | true => rw [if_neg (by simp), if_pos hf]; exact hrec

/-! Theorems. -/

/-- C8: once both the bootstrap snapshot archive and the extracted default
snapshot directory exist, every call of SetDefaultSnapshot with
force = false performs no download, no write and no extraction (empty
action list), leaves the on-disk state unchanged, and returns nil. -/
theorem setDefaultSnapshot_noop_when_artifacts_exist
    (env : SnapshotEnv) (fs : SnapshotFsState)
    (h₁ : fs.archiveExists = true) (h₂ : fs.snapshotDirExists = true) :
    SetDefaultSnapshot env fs false = (fs, [], Except.ok ()) := by
  simp [SetDefaultSnapshot, ensureArchive, h₁, h₂]

/-- Witness for C8 at a concrete environment and state. -/
theorem setDefaultSnapshot_noop_witness :
    SetDefaultSnapshot snapshotEnvFixture ⟨true, true⟩ false =
      (⟨true, true⟩, [], Except.ok ()) :=
  setDefaultSnapshot_noop_when_artifacts_exist snapshotEnvFixture ⟨true, true⟩ rfl rfl

/-- C4: when the genesis file exists but fails JSON parsing, doDeploy
returns the wrapped parse error with an empty call log, so in particular
no LoadSnapshot and no CreateBlockchains call is issued. -/
theorem doDeploy_genesis_parse_error_no_calls
    (env : DeployEnv) (chain chainGenesis : String) (p : String × String) (e : String)
    (h₁ : env.setupEnv = Except.ok p) (h₂ : env.clientOk = Except.ok ())
    (h₃ : env.genesisFileExists = true) (h₄ : env.genesisParse = Except.error e) :
    doDeploy env chain chainGenesis =
      ([], DeployResult.err ("failed to unpack chain ID from genesis: " ++ e)) := by
  simp [doDeploy, h₁, h₂, h₃, h₄]

/-- Witness for C4 at a concrete environment. -/
theorem doDeploy_genesis_parse_error_witness :
    doDeploy { envFixture with genesisParse := Except.error "invalid character" }
        "mychain" "genesis.json" =
      ([], DeployResult.err ("failed to unpack chain ID from genesis: invalid character")) :=
  doDeploy_genesis_parse_error_no_calls _ _ _ ("avalanchego", "plugins") "invalid character"
    rfl rfl rfl rfl

/-- C3: when the deterministic VM id of the requested chain already appears
among the cluster's custom VMs, doDeploy returns nil error with both ids
empty and its call log holds only the initial health probe: no plugin
install, no snapshot load and no blockchain creation is issued. -/
theorem doDeploy_already_deployed_noop
    (env : DeployEnv) (chain chainGenesis : String) (p : String × String)
    (g : Genesis) (ci : ClusterInfo) (v : String)
    (h₁ : env.setupEnv = Except.ok p) (h₂ : env.clientOk = Except.ok ())
    (h₃ : env.genesisFileExists = true) (h₄ : env.genesisParse = Except.ok g)
    (h₅ : env.health1 = Except.ok ci) (h₆ : env.vmID = Except.ok v)
    (h₇ : alreadyDeployed v (some ci) = true) :
    doDeploy env chain chainGenesis =
      ([RpcCall.health], DeployResult.ok ID.empty ID.empty) := by
  simp [doDeploy, deployPostProbe, h₁, h₂, h₃, h₄, h₅, h₆, h₇]

/-- Witness for C3: redeploying the chain whose VM id is already in the
cluster fixture is a logged-health-probe-only no-op. -/
theorem doDeploy_already_deployed_witness :
    doDeploy { envFixture with vmID := Except.ok "vmOld" } "mychain" "genesis.json" =
      ([RpcCall.health], DeployResult.ok ID.empty ID.empty) :=
  doDeploy_already_deployed_noop _ _ _ ("avalanchego", "plugins")
    { chainID := 1337, alloc := [("0x8db9", 1000000)] } ciFixture "vmOld"
    rfl rfl rfl rfl rfl rfl (by decide)

/-- C10: on the already-deployed path, DeployToLocalNetwork returns the
empty subnet id and the empty blockchain id with nil error, not the
identifiers of the pre-existing deployment. -/
theorem deployToLocalNetwork_already_deployed_empty_ids
    (env : DeployEnv) (chain chainGenesis : String) (p : String × String)
    (g : Genesis) (ci : ClusterInfo) (v : String)
    (h₀ : env.procIsRunning = Except.ok true)
    (h₁ : env.setupEnv = Except.ok p) (h₂ : env.clientOk = Except.ok ())
    (h₃ : env.genesisFileExists = true) (h₄ : env.genesisParse = Except.ok g)
    (h₅ : env.health1 = Except.ok ci) (h₆ : env.vmID = Except.ok v)
    (h₇ : alreadyDeployed v (some ci) = true) :
    DeployToLocalNetwork env chain chainGenesis =
      ([RpcCall.health], DeployResult.ok ID.empty ID.empty) := by
  simp [DeployToLocalNetwork, StartServer, h₀, doDeploy, deployPostProbe,
    h₁, h₂, h₃, h₄, h₅, h₆, h₇]

/-- Witness for C10: the cluster fixture's existing deployment has the
non-empty blockchain id bcExisting, yet the returned pair is empty ids. -/
theorem deployToLocalNetwork_already_deployed_witness :
    DeployToLocalNetwork { envFixture with vmID := Except.ok "vmOld" }
        "mychain" "genesis.json" =
      ([RpcCall.health], DeployResult.ok ID.empty ID.empty) :=
  deployToLocalNetwork_already_deployed_empty_ids _ _ _ ("avalanchego", "plugins")
    { chainID := 1337, alloc := [("0x8db9", 1000000)] } ciFixture "vmOld"
    rfl rfl rfl rfl rfl rfl rfl (by decide)

/-- C1: slot selection sorts the non-empty pool into the string order and
picks the entry at index createdCount mod pool size; on the pool
s3, s1, s2 with count 4 it selects s2; on the empty pool it fails with the
preloaded-subnet-ids error instead of selecting. -/
theorem slotSelect_spec :
    (∀ (pool : List String) (c : Nat), pool ≠ [] →
      ∃ (sorted : List String) (h : c % sorted.length < sorted.length),
        sorted.Perm pool ∧ List.Sorted strLe sorted ∧
        slotSelect pool c = Except.ok (sorted.get ⟨c % sorted.length, h⟩)) ∧
    slotSelect ["s3", "s1", "s2"] 4 = Except.ok "s2" ∧
    (∀ c : Nat, slotSelect [] c =
      Except.error "the network has not preloaded subnet IDs") := by
  refine ⟨?_, rfl, fun c => rfl⟩
  intro pool c hpool
  have hperm : (sortStrings pool).Perm pool := List.perm_insertionSort strLe pool
  have hne : ¬ (sortStrings pool).length = 0 := by
    rw [hperm.length_eq]
    exact fun h0 => hpool (List.eq_nil_of_length_eq_zero h0)
  refine ⟨sortStrings pool, Nat.mod_lt _ (Nat.pos_of_ne_zero hne), hperm,
    List.sorted_insertionSort strLe pool, ?_⟩
  simp only [slotSelect]
  rw [dif_neg hne]

/-- Witness for C1 on a concrete non-empty pool. -/
theorem slotSelect_spec_witness :
    ∃ (sorted : List String) (h : 4 % sorted.length < sorted.length),
      sorted.Perm ["s3", "s1", "s2"] ∧ List.Sorted strLe sorted ∧
      slotSelect ["s3", "s1", "s2"] 4 = Except.ok (sorted.get ⟨4 % sorted.length, h⟩) :=
  slotSelect_spec.1 ["s3", "s1", "s2"] 4 (by decide)

/-- C7: GetEndpoints is a total pure function of the cluster info producing
exactly one formatted line per node and deployed custom VM, hence the
empty list on zero nodes or zero custom VMs, and every produced line is
the endpoint line of some node and some custom-VM entry. -/
theorem getEndpoints_spec (ci : ClusterInfo) :
    (GetEndpoints ci).length = ci.nodeInfos.length * ci.customVms.length ∧
    ((ci.nodeInfos = [] ∨ ci.customVms = []) → GetEndpoints ci = []) ∧
    ∀ line ∈ GetEndpoints ci,
      ∃ n ∈ ci.nodeInfos, ∃ p ∈ ci.customVms, line = endpointLine n p.1 p.2 := by
  refine ⟨getEndpoints_length ci, getEndpoints_eq_nil ci, ?_⟩
  intro line hline
  rw [GetEndpoints, List.mem_flatMap] at hline
  obtain ⟨n, hn, hline⟩ := hline
  rw [List.mem_map] at hline
  obtain ⟨p, hp, rfl⟩ := hline
  exact ⟨n, hn, p, hp, rfl⟩

/-- Witness for C7: a cluster with a node but no custom VMs formats to the
empty list. -/
theorem getEndpoints_spec_witness : GetEndpoints ciNoVms = [] :=
  (getEndpoints_spec ciNoVms).2.1 (Or.inr rfl)

/-- C9: the first-endpoint index of the report step is defined (the
Option-returning index yields some) exactly when the post-creation cluster
info has at least one node and at least one custom VM; when it has zero
nodes or zero custom VMs, doDeploy reaches the report step and the result
is the out-of-range panic, not a returned error. -/
theorem doDeploy_report_index_panic :
    (∀ ci : ClusterInfo,
      (GetEndpoints ci)[0]?.isSome = true ↔
        (ci.nodeInfos ≠ [] ∧ ci.customVms ≠ [])) ∧
    (∀ (env : DeployEnv) (chain chainGenesis : String) (p : String × String)
        (g : Genesis) (ci₁ ci₂ ci₃ : ClusterInfo) (v : String),
      env.setupEnv = Except.ok p → env.clientOk = Except.ok () →
      env.genesisFileExists = true → env.genesisParse = Except.ok g →
      env.health1 = Except.ok ci₁ → env.vmID = Except.ok v →
      alreadyDeployed v (some ci₁) = false →
      env.pluginInstallResult = Except.ok () →
      env.health2 = Except.ok ci₂ → ci₂.subnets ≠ [] →
      env.createBlockchainsResult = Except.ok () →
      env.health3 = Except.ok ci₃ →
      (ci₃.nodeInfos = [] ∨ ci₃.customVms = []) →
      (doDeploy env chain chainGenesis).2 = DeployResult.panic) := by
  constructor
  · intro ci
    have hlen := getEndpoints_length ci
    constructor
    · intro h
      have hpos : 0 < (GetEndpoints ci).length := by
        cases hE : GetEndpoints ci with
        | nil => rw [hE] at h; simp at h
        | cons a t => simp
      rw [hlen] at hpos
      constructor
      · intro hnil; rw [hnil] at hpos; simp at hpos
      · intro hnil; rw [hnil] at hpos; simp at hpos
    · rintro ⟨hn, hv⟩
      have hpos : 0 < (GetEndpoints ci).length := by
        rw [hlen]
        exact Nat.mul_pos (List.length_pos.mpr hn) (List.length_pos.mpr hv)
      cases hE : GetEndpoints ci with
      | nil => rw [hE] at hpos; simp at hpos
      | cons a t => simp
  · intro env chain chainGenesis p g ci₁ ci₂ ci₃ v h₁ h₂ h₃ h₄ h₅ h₆ h₇ h₈ h₉ h₁₀ h₁₁ h₁₂ h₁₃
    obtain ⟨s, hs⟩ := slotSelect_ok_of_ne_nil ci₂.subnets ci₂.customVms.length h₁₀
    simp [doDeploy, deployPostProbe, reportStep, h₁, h₂, h₃, h₄, h₅, h₆, h₇, h₈, h₉,
      h₁₁, h₁₂, hs, getEndpoints_eq_nil ci₃ h₁₃]

/-- Witness for C9: a deployment whose post-creation cluster info carries
no custom VMs panics in the report step. -/
theorem doDeploy_report_index_panic_witness :
    ((GetEndpoints ciNoVms)[0]?.isSome = true ↔
      (ciNoVms.nodeInfos ≠ [] ∧ ciNoVms.customVms ≠ [])) ∧
    (doDeploy { envFixture with health3 := Except.ok ciNoVms }
        "mychain" "genesis.json").2 = DeployResult.panic :=
  ⟨doDeploy_report_index_panic.1 ciNoVms,
   doDeploy_report_index_panic.2 _ "mychain" "genesis.json" ("avalanchego", "plugins")
     { chainID := 1337, alloc := [("0x8db9", 1000000)] } ciFixture ciFixture ciNoVms "vmNew"
     rfl rfl rfl rfl rfl rfl (by decide) rfl rfl (by decide) rfl rfl (Or.inr rfl)⟩

/-- C2: WaitForHealthy returns success only when some polled tick saw its
context not done and a health response whose cluster info is non-nil with
both the overall-healthy and the custom-VMs-healthy flag true, and the
returned cluster info is exactly that response's; a tick whose response is
overall-healthy but custom-VMs-unhealthy keeps the loop polling at the
next tick. -/
theorem waitForHealthy_success_requires_both_flags :
    (∀ (ctxDone : Nat → Bool) (health : Nat → Except String HealthResponse)
        (fuel : Nat) (ci : ClusterInfo),
        WaitForHealthy ctxDone health fuel = PollResult.success ci →
        ci.healthy = true ∧ ci.customVmsHealthy = true ∧
          ∃ j, j < fuel ∧ ctxDone j = false ∧
            health j = Except.ok { clusterInfo := some ci }) ∧
    (∀ (ctxDone : Nat → Bool) (health : Nat → Except String HealthResponse)
        (fuel i : Nat) (resp : HealthResponse) (ci : ClusterInfo),
        ctxDone i = false → health i = Except.ok resp →
        resp.clusterInfo = some ci →
        ci.healthy = true → ci.customVmsHealthy = false →
        waitForHealthyAux ctxDone health (fuel + 1) i =
          waitForHealthyAux ctxDone health fuel (i + 1)) := by
  constructor
  · intro ctxDone health fuel ci h
    obtain ⟨h₁, h₂, j, hj₁, hj₂, hj₃, hj₄⟩ :=
      waitForHealthyAux_success ctxDone health fuel 0 ci h
    exact ⟨h₁, h₂, j, by omega, hj₃, hj₄⟩
  · intro ctxDone health fuel i resp ci hc hh hci hhb hvb
    rw [waitForHealthyAux, if_neg (by simp [hc]), hh]
    dsimp only
    rw [hci]
    dsimp only
    rw [if_neg (by simp [hhb]), if_pos hvb]

/-- Witness for C2: a loop whose single tick answers fully healthy
succeeds with that response's cluster info, and a tick answering
overall-healthy with unhealthy custom VMs equals one more polling step. -/
theorem waitForHealthy_success_witness :
    (ciFixture.healthy = true ∧ ciFixture.customVmsHealthy = true ∧
      ∃ j, j < 1 ∧ false = false ∧
        (Except.ok { clusterInfo := some ciFixture } : Except String HealthResponse) =
          Except.ok { clusterInfo := some ciFixture }) ∧
    waitForHealthyAux (fun _ => false)
        (fun _ => Except.ok { clusterInfo := some ciHalfHealthy }) (1 + 1) 0 =
      waitForHealthyAux (fun _ => false)
        (fun _ => Except.ok { clusterInfo := some ciHalfHealthy }) 1 (0 + 1) :=
  ⟨waitForHealthy_success_requires_both_flags.1 (fun _ => false)
      (fun _ => Except.ok { clusterInfo := some ciFixture }) 1 ciFixture (by decide),
   waitForHealthy_success_requires_both_flags.2 (fun _ => false)
      (fun _ => Except.ok { clusterInfo := some ciHalfHealthy }) 1 0
      { clusterInfo := some ciHalfHealthy } ciHalfHealthy rfl rfl rfl rfl rfl⟩

/-- C5: with a context that expires at tick d, a loop that was still
polling before d returns the cancellation result exactly when it reaches
tick d, no matter what the backend would answer from tick d on; and from
any tick at or past expiry the loop returns the cancellation result
immediately, never polling further. -/
theorem waitForHealthy_cancellation :
    (∀ (d fuel : Nat) (health : Nat → Except String HealthResponse),
        d < fuel → (∀ i, i < d → continuePolling (health i)) →
        WaitForHealthy (fun i => decide (d ≤ i)) health fuel =
          PollResult.ctxCancelled) ∧
    (∀ (d fuel i : Nat) (health : Nat → Except String HealthResponse),
        d ≤ i → 0 < fuel →
        waitForHealthyAux (fun j => decide (d ≤ j)) health fuel i =
          PollResult.ctxCancelled) := by
  constructor
  · intro d fuel health hd hcont
    exact waitForHealthyAux_cancelled_of_continue d health fuel 0 (by omega) (by omega)
      (fun j _ hj => hcont j hj)
  · intro d fuel i health hdi hfuel
    cases fuel with
    | zero => exact absurd hfuel (by omega)
    | succ n => rw [waitForHealthyAux, if_pos (by simpa using hdi)]

/-- Witness for C5: the context expires at tick 1; the backend would
answer fully healthy from tick 1 on, yet the poller cancels. -/
theorem waitForHealthy_cancellation_witness :
    WaitForHealthy (fun i => decide (1 ≤ i))
        (fun i => if i = 0 then Except.ok { clusterInfo := none }
          else Except.ok { clusterInfo := some ciFixture }) 3 =
      PollResult.ctxCancelled := by
  apply waitForHealthy_cancellation.1 1 3
  · omega
  · intro i hi
    have hi0 : i = 0 := by omega
    subst hi0
    exact ⟨{ clusterInfo := none }, rfl, Or.inl rfl⟩

/-- C6: in the network-health-probe step a poll error whose text holds
"not bootstrapped" is tolerated: deployment continues as the remaining
pipeline with networkBooted recorded false and nil cluster info; any
other poll error aborts the whole deployment with the wrapped
failed-to-query error after only the probe call. -/
theorem doDeploy_not_bootstrapped_tolerated :
    (∀ (env : DeployEnv) (chain chainGenesis : String) (p : String × String)
        (g : Genesis) (e : String),
        env.setupEnv = Except.ok p → env.clientOk = Except.ok () →
        env.genesisFileExists = true → env.genesisParse = Except.ok g →
        env.health1 = Except.error e →
        strContains e "not bootstrapped" = true →
        doDeploy env chain chainGenesis =
          (RpcCall.health :: (deployPostProbe env chain chainGenesis false none).1,
           (deployPostProbe env chain chainGenesis false none).2)) ∧
    (∀ (env : DeployEnv) (chain chainGenesis : String) (p : String × String)
        (g : Genesis) (e : String),
        env.setupEnv = Except.ok p → env.clientOk = Except.ok () →
        env.genesisFileExists = true → env.genesisParse = Except.ok g →
        env.health1 = Except.error e →
        strContains e "not bootstrapped" = false →
        doDeploy env chain chainGenesis =
          ([RpcCall.health],
           DeployResult.err ("failed to query network health: " ++ e))) := by
  constructor
  · intro env chain chainGenesis p g e h₁ h₂ h₃ h₄ h₅ h₆
    simp [doDeploy, h₁, h₂, h₃, h₄, h₅, h₆]
  · intro env chain chainGenesis p g e h₁ h₂ h₃ h₄ h₅ h₆
    simp [doDeploy, h₁, h₂, h₃, h₄, h₅, h₆]

/-- Witness for C6: a not-bootstrapped probe error continues into the
remaining pipeline with networkBooted false, while a connection-refused
probe error aborts with the wrapped error. -/
theorem doDeploy_not_bootstrapped_witness :
    (doDeploy { envFixture with health1 := Except.error "network not bootstrapped" }
        "mychain" "genesis.json" =
      (RpcCall.health ::
        (deployPostProbe { envFixture with health1 := Except.error "network not bootstrapped" }
          "mychain" "genesis.json" false none).1,
       (deployPostProbe { envFixture with health1 := Except.error "network not bootstrapped" }
          "mychain" "genesis.json" false none).2)) ∧
    (doDeploy { envFixture with health1 := Except.error "connection refused" }
        "mychain" "genesis.json" =
      ([RpcCall.health],
       DeployResult.err ("failed to query network health: " ++ "connection refused"))) :=
  ⟨doDeploy_not_bootstrapped_tolerated.1 _ "mychain" "genesis.json"
      ("avalanchego", "plugins") { chainID := 1337, alloc := [("0x8db9", 1000000)] }
      "network not bootstrapped" rfl rfl rfl rfl rfl (by decide),
   doDeploy_not_bootstrapped_tolerated.2 _ "mychain" "genesis.json"
      ("avalanchego", "plugins") { chainID := 1337, alloc := [("0x8db9", 1000000)] }
      "connection refused" rfl rfl rfl rfl rfl (by decide)⟩

end AvalancheCli
